import Mathlib

/-
Shallow embedding of the FlappyBird reactive state machine from the final
iteration of the repository (the file defining the paused field, the
length-indexed tick, restart with ghost transfer, and the seeded RNG).
JavaScript numbers are modelled as exact rationals; machine-level float
rounding is outside the model.  Field and function names follow the source.
-/

/-- Viewport constant CANVAS_WIDTH from the source. -/
def CANVAS_WIDTH : ℚ := 600

/-- Viewport constant CANVAS_HEIGHT from the source. -/
def CANVAS_HEIGHT : ℚ := 400

/-- Birb constant WIDTH from the source. -/
def BIRB_WIDTH : ℚ := 42

/-- Birb constant HEIGHT from the source. -/
def BIRB_HEIGHT : ℚ := 30

/-- Constant PIPE_WIDTH from the source. -/
def PIPE_WIDTH : ℚ := 50

/-- Constant TICK_RATE_MS from the source. -/
def TICK_RATE_MS : ℚ := 20

/-- Constant GRAVITY from the source (0.5). -/
def GRAVITY : ℚ := 1 / 2

/-- Constant FLAP_STRENGTH from the source. -/
def FLAP_STRENGTH : ℚ := -8

/-- Constant BIRD_X from the source; the horizontal bird position is fixed. -/
def BIRD_X : ℚ := 100

/-- Constant PIPE_SPEED from the source. -/
def PIPE_SPEED : ℚ := 2

/-- Pipe record from the source: one obstacle with a gap band. -/
structure Pipe where
  id : ℚ
  x : ℚ
  gapY : ℚ
  gapHeight : ℚ
  passed : Bool
  time : ℚ
deriving Repr, DecidableEq

/-- State record from the source: the full immutable game state. -/
structure State where
  birdY : ℚ
  birdVelocity : ℚ
  gameTime : ℚ
  pipes : List Pipe
  score : ℚ
  gameEnd : Bool
  lives : ℚ
  rngSeed : ℚ
  invulnerableUntil : ℚ
  currentPath : List ℚ
  ghostPath : List ℚ
  paused : Bool
deriving Repr, DecidableEq

/-- The initialState value from the source. -/
def initialState : State where
  birdY := CANVAS_HEIGHT / 2 - BIRB_HEIGHT / 2
  birdVelocity := 0
  gameTime := 0
  pipes := []
  score := 0
  gameEnd := false
  lives := 3
  rngSeed := 12345
  invulnerableUntil := 0
  currentPath := []
  ghostPath := []
  paused := false

/-- Truncation toward zero, the rounding used by the JavaScript remainder
operator on its implicit division. -/
def jsTrunc (q : ℚ) : ℤ := if 0 ≤ q then ⌊q⌋ else -⌊-q⌋

/-- Model of the JavaScript remainder operator on numbers: the dividend minus
the divisor times the truncated quotient. -/
def jsMod (x m : ℚ) : ℚ := x - m * (jsTrunc (x / m) : ℚ)

namespace RNG

/-- RNG modulus constant m from the source, 2 to the power 31. -/
def m : ℚ := 2147483648

/-- RNG multiplier constant a from the source. -/
def a : ℚ := 1103515245

/-- RNG increment constant c from the source. -/
def c : ℚ := 12345

/-- Linear congruential step from the source: (a * seed + c) mod m. -/
def hash (seed : ℚ) : ℚ := jsMod (a * seed + c) m

/-- Affine map of a hash onto the interval from -1 to 1, from the source. -/
def scale (h : ℚ) : ℚ := 2 * h / (m - 1) - 1

end RNG

/-- The generateBounceVelocity function from the source: advance the seed
once, scale it, build a magnitude between 3 and 6, and orient it by the
bounce direction.  Returns the pair of velocity and next seed. -/
def generateBounceVelocity (seed : ℚ) (isUpward : Bool) : ℚ × ℚ :=
  let nextSeed := RNG.hash seed
  let randomValue := RNG.scale nextSeed
  let magnitude := 3 + |randomValue| * 3
  (if isUpward then -magnitude else magnitude, nextSeed)

/-- The flap function from the source: set the velocity to FLAP_STRENGTH,
leaving every other field unchanged.  The source applies it to every Space
keydown with no guard on gameEnd or paused. -/
def flap (s : State) : State := { s with birdVelocity := FLAP_STRENGTH }

/-- The restart event handler from the source stream restart$: from an ended
state, rebuild initialState while moving currentPath into ghostPath;
otherwise return the state unchanged. -/
def restart (s : State) : State :=
  if s.gameEnd then { initialState with ghostPath := s.currentPath } else s

/-- The pause event handler from the source stream pause$: flip paused. -/
def pauseToggle (s : State) : State := { s with paused := !s.paused }

/-- The checkBirdHitsTop function from the source. -/
def checkBirdHitsTop (birdY : ℚ) : Bool := decide (birdY ≤ 0)

/-- The checkBirdHitsBottom function from the source. -/
def checkBirdHitsBottom (birdY : ℚ) : Bool :=
  decide (birdY + BIRB_HEIGHT ≥ CANVAS_HEIGHT)

/-- The checkBirdHitsPipe function from the source: horizontal overlap of the
bird box with the pipe column, then vertical escape from the gap band. -/
def checkBirdHitsPipe (birdY : ℚ) (pipe : Pipe) : Bool :=
  let birdLeft := BIRD_X
  let birdRight := BIRD_X + BIRB_WIDTH
  let birdTop := birdY
  let birdBottom := birdY + BIRB_HEIGHT
  let pipeLeft := pipe.x
  let pipeRight := pipe.x + PIPE_WIDTH
  let gapTop := (pipe.gapY - pipe.gapHeight / 2) * CANVAS_HEIGHT
  let gapBottom := (pipe.gapY + pipe.gapHeight / 2) * CANVAS_HEIGHT
  if birdRight > pipeLeft ∧ birdLeft < pipeRight then
    decide (birdTop < gapTop ∨ birdBottom > gapBottom)
  else false

/-- Result type of getPipeCollisionType from the source. -/
inductive CollisionType where
  | top
  | bottom
deriving Repr, DecidableEq, BEq

/-- The getPipeCollisionType function from the source: compare the bird
vertical center with the gap center. -/
def getPipeCollisionType (birdY : ℚ) (pipe : Pipe) : CollisionType :=
  let birdCenter := birdY + BIRB_HEIGHT / 2
  let gapCenter := pipe.gapY * CANVAS_HEIGHT
  if birdCenter < gapCenter then CollisionType.top else CollisionType.bottom

/-- Local value velocity of the tick body: gravity applied to the velocity. -/
def velNew (s : State) : ℚ := s.birdVelocity + GRAVITY

/-- Local value y of the tick body: the freshly integrated bird position. -/
def yNew (s : State) : ℚ := s.birdY + velNew s

/-- Local value newTime of the tick body. -/
def newTime (s : State) : ℚ := s.gameTime + TICK_RATE_MS / 1000

/-- Local value movedPipes of the tick body: every pipe shifted left by
PIPE_SPEED, dropping the ones past the left edge. -/
def movedPipes (s : State) : List Pipe :=
  (s.pipes.map (fun pipe => { pipe with x := pipe.x - PIPE_SPEED })).filter
    (fun pipe => decide (pipe.x > -PIPE_WIDTH))

/-- Body of the map building pipesWithScore in the tick body: mark a pipe
passed once its right edge is left of the bird position. -/
def flipPassed (pipe : Pipe) : Pipe :=
  if pipe.passed = false ∧ pipe.x + PIPE_WIDTH < BIRD_X then
    { pipe with passed := true }
  else pipe

/-- Local value pipesWithScore of the tick body. -/
def pipesWithScore (s : State) : List Pipe := (movedPipes s).map flipPassed

/-- Local value newlyPassed of the tick body: how many moved pipes get their
passed flag on this tick. -/
def newlyPassed (s : State) : ℕ :=
  ((movedPipes s).filter
    (fun pipe => !pipe.passed && decide (pipe.x + PIPE_WIDTH < BIRD_X))).length

/-- Local value newScore of the tick body. -/
def newScore (s : State) : ℚ := s.score + (newlyPassed s : ℚ)

/-- Local value allPipesPassed of the tick body: the end-by-completion test
of the source, a count comparison of the updated score against the length of
the full pipe table. -/
def allPipesPassed (allPipesLength : ℕ) (s : State) : Bool :=
  decide (0 < allPipesLength) && decide (newScore s ≥ (allPipesLength : ℚ))

/-- Local value hitPipe of the tick body: the first pipe of the incoming
state that the integrated bird position collides with. -/
def hitPipe (s : State) : Option Pipe :=
  s.pipes.find? (fun pipe => checkBirdHitsPipe (yNew s) pipe)

/-- Guard of the collision branch of the tick body: vulnerable and some hit. -/
def collisionNow (s : State) : Bool :=
  decide (newTime s ≥ s.invulnerableUntil) &&
    (checkBirdHitsTop (yNew s) || checkBirdHitsBottom (yNew s) ||
      (hitPipe s).isSome)

/-- Local value shouldBounceUp of the tick body: bottom of screen bounces up,
top of screen bounces down, and a pipe hit bounces by its collision side. -/
def shouldBounceUp (s : State) : Bool :=
  if checkBirdHitsBottom (yNew s) then true
  else if checkBirdHitsTop (yNew s) then false
  else
    match hitPipe s with
    | some p => getPipeCollisionType (yNew s) p == CollisionType.bottom
    | none => false

/-- Local value clampedY of the tick body: the integrated position clamped to
the screen. -/
def clampedY (s : State) : ℚ :=
  max 0 (min (CANVAS_HEIGHT - BIRB_HEIGHT) (yNew s))

/-- The tick function from the source, parameterised by the length of the
full pipe table: a no-op while ended or paused, else either the collision
branch (store the unclamped position, bounce with a fresh seed, lose a life,
re-arm invulnerability) or the normal branch (store the clamped position). -/
def tick (allPipesLength : ℕ) (s : State) : State :=
  if s.gameEnd || s.paused then s
  else if collisionNow s then
    let bv := generateBounceVelocity s.rngSeed (shouldBounceUp s)
    { s with
      birdY := yNew s
      birdVelocity := bv.1
      pipes := pipesWithScore s
      gameTime := newTime s
      lives := s.lives - 1
      rngSeed := bv.2
      invulnerableUntil := newTime s + 2
      score := newScore s
      gameEnd := decide (s.lives - 1 ≤ 0) || allPipesPassed allPipesLength s
      currentPath := s.currentPath ++ [yNew s] }
  else
    { s with
      birdY := clampedY s
      birdVelocity := velNew s
      pipes := pipesWithScore s
      score := newScore s
      gameTime := newTime s
      gameEnd := allPipesPassed allPipesLength s
      currentPath := s.currentPath ++ [clampedY s] }

/-- JavaScript numeric value as it can appear in a parsed pipe record: a
finite number, the NaN produced by parseFloat on a non-numeric field, or the
undefined produced by destructuring a record with too few fields. -/
inductive JNum where
  | num (q : ℚ)
  | nan
  | undef
deriving Repr, DecidableEq

/-- Accumulate a digit list into a natural number. -/
def digitsVal (l : List Char) : ℕ :=
  l.foldl (fun acc ch => 10 * acc + (ch.toNat - 48)) 0

/-- Whitespace test used by the trim model. -/
def isWhitespaceChar (ch : Char) : Bool :=
  ch = ' ' || ch = '\t' || ch = '\n' || ch = '\r'

/-- Model of the JavaScript trim method: drop whitespace from both ends. -/
def trimChars (cs : List Char) : List Char :=
  ((cs.dropWhile isWhitespaceChar).reverse.dropWhile isWhitespaceChar).reverse

/-- Accumulator loop of the split model. -/
def splitOnCharAux (sep : Char) : List Char → List Char → List (List Char)
  | [], acc => [acc.reverse]
  | ch :: cs, acc =>
    if ch = sep then acc.reverse :: splitOnCharAux sep cs []
    else splitOnCharAux sep cs (ch :: acc)

/-- Model of the JavaScript split method with a one-character separator. -/
def splitOnChar (sep : Char) (cs : List Char) : List (List Char) :=
  splitOnCharAux sep cs []

/-- Core of the parseFloat model on an unsigned character list: leading
digits, an optional dot with further digits, trailing characters ignored;
no leading digit anywhere yields nan. -/
def parseFloatCore (cs : List Char) : JNum :=
  let intPart := cs.takeWhile Char.isDigit
  let rest := cs.dropWhile Char.isDigit
  let fracPart :=
    match rest with
    | ch :: rs => if ch = '.' then rs.takeWhile Char.isDigit else []
    | [] => []
  if intPart.isEmpty && fracPart.isEmpty then JNum.nan
  else
    JNum.num ((digitsVal intPart : ℚ) +
      (digitsVal fracPart : ℚ) / (10 ^ fracPart.length))

/-- Model of the JavaScript parseFloat builtin restricted to plain decimal
literals: an optional sign, digits with an optional fractional part; any
input without leading digits yields nan, and it never throws. -/
def parseFloat (cs : List Char) : JNum :=
  match cs with
  | ch :: rest =>
    if ch = '-' then
      match parseFloatCore rest with
      | JNum.num q => JNum.num (-q)
      | r => r
    else if ch = '+' then parseFloatCore rest
    else parseFloatCore (ch :: rest)
  | [] => JNum.nan

/-- Pipe record as produced by the parseCSV function of the source, whose
numeric fields come straight from parseFloat and destructuring and may
therefore be nan or undefined. -/
structure RawPipe where
  id : ℕ
  x : ℚ
  gapY : JNum
  gapHeight : JNum
  passed : Bool
  time : JNum
deriving Repr, DecidableEq

/-- Field list of one data line in the parseCSV body: split on commas, trim
each field, parseFloat it. -/
def parseRecord (line : List Char) : List JNum :=
  (splitOnChar ',' line).map (fun v => parseFloat (trimChars v))

/-- The parseCSV function from the source: trim the text, split on newlines,
drop the header, and turn every remaining record into a pipe with sequential
id, x at the right edge of the viewport, and passed cleared.  Destructuring
a record with fewer than three fields leaves the later fields undefined. -/
def parseCSV (csvContent : String) : List RawPipe :=
  ((splitOnChar '\n' (trimChars csvContent.toList)).drop 1).enum.map (fun p =>
    let fields := parseRecord p.2
    { id := p.1
      x := CANVAS_WIDTH
      gapY := fields.getD 0 JNum.undef
      gapHeight := fields.getD 1 JNum.undef
      passed := false
      time := fields.getD 2 JNum.undef })

/-- Concrete pipe used to exercise score crediting: after the tick moves it
to x = 38 its right edge 88 is left of the bird at 100, so its passed flag
flips on that tick; its gap band covers the whole screen so it cannot
collide. -/
def scoreWitnessPipe : Pipe :=
  { id := 0, x := 40, gapY := 1 / 2, gapHeight := 1, passed := false, time := 0 }

/-- Concrete state holding scoreWitnessPipe. -/
def scoreWitnessState : State := { initialState with pipes := [scoreWitnessPipe] }

/-- Concrete pipe whose column at x = 143 does not yet overlap the bird
(bird right edge 142) but whose moved position 141 does, with a gap band the
bird violates vertically: it shows the collision test lagging the stored
pipe positions. -/
def lagPipe : Pipe :=
  { id := 0, x := 143, gapY := 1 / 2, gapHeight := 1 / 100, passed := false,
    time := 0 }

/-- Concrete state holding lagPipe. -/
def lagState : State := { initialState with pipes := [lagPipe] }

/-- Concrete pipe with gap band from 50 to 150 that the bird at y = 200 lies
entirely below while overlapping horizontally. -/
def bottomHitPipe : Pipe :=
  { id := 0, x := 80, gapY := 1 / 4, gapHeight := 1 / 4, passed := false,
    time := 0 }

/-- Concrete state in which the bird, integrated to y = 200, hits
bottomHitPipe from below. -/
def bottomHitState : State :=
  { initialState with
    birdY := 200
    birdVelocity := -(1 / 2)
    pipes := [bottomHitPipe] }

/-- Claim C1 (counterexample): the source applies flap to every Space
keydown with no guard, so on an ended state flap does not return the state
unchanged; it still overwrites the velocity with FLAP_STRENGTH. -/
theorem flap_ignores_gameEnd_counterexample :
    flap { initialState with gameEnd := true } ≠
      { initialState with gameEnd := true } ∧
    (flap { initialState with gameEnd := true }).birdVelocity = FLAP_STRENGTH ∧
    ({ initialState with gameEnd := true } : State).birdVelocity = 0 := by
  refine ⟨?_, rfl, rfl⟩
  intro h
  have hv := congrArg State.birdVelocity h
  simp only [flap, initialState] at hv
  norm_num [FLAP_STRENGTH] at hv

/-- Claim C1 (amended): for every state, ended or not, paused or not, flap
returns the state with birdVelocity replaced by FLAP_STRENGTH = -8 and every
other field unchanged. -/
theorem flap_sets_velocity_unconditionally (s : State) :
    flap s = { s with birdVelocity := FLAP_STRENGTH } := rfl

/-- Claim C4: for every state that is paused or ended, the tick transition
returns the state itself, equal in every field; time does not advance, no
physics runs, pipes, score, lives and currentPath are untouched. -/
theorem tick_noop_when_ended_or_paused (n : ℕ) (s : State)
    (h : s.gameEnd = true ∨ s.paused = true) : tick n s = s := by
  unfold tick
  rcases h with h | h <;> simp [h]

/-- Claim C4 (witness): the paused initial state is returned unchanged by a
tick. -/
theorem tick_noop_witness :
    ({ initialState with paused := true } : State).paused = true ∧
    tick 3 { initialState with paused := true } =
      { initialState with paused := true } :=
  ⟨rfl, tick_noop_when_ended_or_paused 3 { initialState with paused := true }
    (Or.inr rfl)⟩

/-- Claim C5: applying restart to an ended state yields the session-default
initial state in every field except ghostPath, which receives the ended
run currentPath; applying restart to a non-ended state is a no-op. -/
theorem restart_spec (s : State) :
    (s.gameEnd = true →
      restart s = { initialState with ghostPath := s.currentPath }) ∧
    (s.gameEnd = false → restart s = s) := by
  constructor <;> intro h <;> simp [restart, h]

/-- Claim C5 (witness): restart on a concrete ended state carries the path
into ghostPath and resets the rest. -/
theorem restart_spec_witness :
    restart { initialState with gameEnd := true, currentPath := [185] } =
      { initialState with ghostPath := [185] } :=
  (restart_spec { initialState with gameEnd := true, currentPath := [185] }).1
    rfl

/-- Claim C3 (counterexample): on a level text whose single data record has
the wrong arity and a non-numeric first field, the loader does not fail with
any error result; it returns one obstacle whose gapY is NaN, whose missing
time field is undefined, and whose gapHeight is the parsed number.  The
partial level is accepted. -/
theorem parseCSV_accepts_malformed_counterexample :
    (parseCSV "gap_y,gap_height,time\nabc,0.2").length = 1 ∧
    (parseCSV "gap_y,gap_height,time\nabc,0.2").map RawPipe.gapY =
      [JNum.nan] ∧
    (parseCSV "gap_y,gap_height,time\nabc,0.2").map RawPipe.time =
      [JNum.undef] ∧
    (parseCSV "gap_y,gap_height,time\nabc,0.2").map RawPipe.gapHeight =
      [JNum.num (1 / 5)] := by
  refine ⟨by decide, by decide, by decide, ?_⟩
  have h : (parseCSV "gap_y,gap_height,time\nabc,0.2").map RawPipe.gapHeight
      = [JNum.num ((digitsVal ['0'] : ℚ) + (digitsVal ['2'] : ℚ) / 10 ^ 1)] :=
    rfl
  rw [h]
  have h0 : digitsVal ['0'] = 0 := by decide
  have h2 : digitsVal ['2'] = 2 := by decide
  rw [h0, h2]
  norm_num

/-- Claim C3 (amended): the loader is total and rejects nothing: for every
level text it returns exactly one obstacle per data record, each with x at
the viewport width and passed cleared, whatever the arity or content of the
record; malformed fields surface as NaN or undefined values instead of a
ParseError. -/
theorem parseCSV_never_rejects (csvContent : String) :
    (parseCSV csvContent).length
      = ((splitOnChar '\n' (trimChars csvContent.toList)).drop 1).length ∧
    ∀ p ∈ parseCSV csvContent, p.x = CANVAS_WIDTH ∧ p.passed = false := by
  constructor
  · simp [parseCSV]
  · intro p hp
    simp only [parseCSV, List.mem_map] at hp
    obtain ⟨q, hq, rfl⟩ := hp
    exact ⟨rfl, rfl⟩

/-- Claim C3 (witness for the amended claim): a record of two non-numeric
fields is still turned into an obstacle at the viewport edge. -/
theorem parseCSV_never_rejects_witness :
    ({ id := 0, x := CANVAS_WIDTH, gapY := JNum.nan, gapHeight := JNum.nan,
        passed := false, time := JNum.undef } : RawPipe).x = CANVAS_WIDTH ∧
    ({ id := 0, x := CANVAS_WIDTH, gapY := JNum.nan, gapHeight := JNum.nan,
        passed := false, time := JNum.undef } : RawPipe).passed = false := by
  refine (parseCSV_never_rejects "h\na,b").2 _ ?_
  have hcomp : parseCSV "h\na,b" =
      [{ id := 0, x := CANVAS_WIDTH, gapY := JNum.nan, gapHeight := JNum.nan,
          passed := false, time := JNum.undef }] := rfl
  rw [hcomp]
  exact List.mem_cons_self _ _

/-- Claim C2 (counterexample): the end-by-completion test of the source is
the count comparison newScore at least allPipesLength, not a check that
every obstacle of the full table is individually marked passed: from a
non-ended, non-paused state whose score already equals the table length 1
while no pipe at all has been marked, a tick ends the game. -/
theorem tick_completion_counterexample :
    (tick 1 { initialState with score := 1 }).gameEnd = true ∧
    ({ initialState with score := 1 } : State).pipes = [] ∧
    (tick 1 { initialState with score := 1 }).pipes = [] := by
  refine ⟨?_, rfl, ?_⟩
  · norm_num [tick, collisionNow, checkBirdHitsTop, checkBirdHitsBottom,
      hitPipe, yNew, velNew, newTime, initialState, GRAVITY, TICK_RATE_MS,
      BIRB_HEIGHT, CANVAS_HEIGHT, allPipesPassed, newScore, newlyPassed,
      movedPipes]
  · norm_num [tick, collisionNow, checkBirdHitsTop, checkBirdHitsBottom,
      hitPipe, yNew, velNew, newTime, initialState, GRAVITY, TICK_RATE_MS,
      BIRB_HEIGHT, CANVAS_HEIGHT, pipesWithScore, movedPipes]

/-- Claim C2 (amended): for every non-ended, non-paused state, the tick sets
gameEnd exactly when the accumulated count reaches the table length (the
table is non-empty and the updated score is at least allPipesLength), or
when a collision this tick brings lives to zero or below; individual passed
marks play no role in the completion test. -/
theorem tick_gameEnd_by_count (n : ℕ) (s : State)
    (hend : s.gameEnd = false) (hpause : s.paused = false) :
    ((tick n s).gameEnd = true ↔
      ((0 < n ∧ (n : ℚ) ≤ newScore s) ∨
        (collisionNow s = true ∧ s.lives - 1 ≤ 0))) := by
  unfold tick
  rw [hend, hpause]
  cases hc : collisionNow s
  · simp [hc, allPipesPassed, ge_iff_le]
  · simp [hc, allPipesPassed, ge_iff_le]
    tauto

/-- Claim C2 (witness for the amended claim): a state whose score already
reaches the table length of 1 ends the game on the next tick. -/
theorem tick_gameEnd_by_count_witness :
    (tick 1 { initialState with score := 1 }).gameEnd = true :=
  (tick_gameEnd_by_count 1 { initialState with score := 1 } rfl rfl).mpr
    (Or.inl ⟨by norm_num,
      by norm_num [newScore, newlyPassed, movedPipes, initialState]⟩)

/-- Claim C8: for every non-ended, non-paused state, the stored bird
position and the value appended to currentPath are the integrated position
clamped to the screen exactly when no collision is registered this tick, and
the unclamped integrated position on a collision tick; the clamp range is
from 0 to CANVAS_HEIGHT minus BIRB_HEIGHT. -/
theorem tick_clamp_spec (n : ℕ) (s : State)
    (hend : s.gameEnd = false) (hpause : s.paused = false) :
    (collisionNow s = true →
      (tick n s).birdY = yNew s ∧
      (tick n s).currentPath = s.currentPath ++ [yNew s]) ∧
    (collisionNow s = false →
      (tick n s).birdY = clampedY s ∧
      (tick n s).currentPath = s.currentPath ++ [clampedY s]) ∧
    0 ≤ clampedY s ∧ clampedY s ≤ CANVAS_HEIGHT - BIRB_HEIGHT := by
  refine ⟨?_, ?_, ?_, ?_⟩
  · intro hc
    unfold tick
    rw [hend, hpause]
    simp [hc]
  · intro hc
    unfold tick
    rw [hend, hpause]
    simp [hc]
  · exact le_max_left _ _
  · exact max_le (by norm_num [CANVAS_HEIGHT, BIRB_HEIGHT]) (min_le_left _ _)

/-- Claim C8 (witness): the initial state collides with nothing, so the
first tick stores the clamped integrated position and appends it to the
path. -/
theorem tick_clamp_spec_witness :
    collisionNow initialState = false ∧
    (tick 0 initialState).birdY = clampedY initialState ∧
    (tick 0 initialState).currentPath =
      initialState.currentPath ++ [clampedY initialState] := by
  have hc : collisionNow initialState = false := by
    norm_num [collisionNow, checkBirdHitsTop, checkBirdHitsBottom, hitPipe,
      yNew, velNew, newTime, initialState, GRAVITY, TICK_RATE_MS,
      BIRB_HEIGHT, CANVAS_HEIGHT]
  exact ⟨hc, (tick_clamp_spec 0 initialState rfl rfl).2.1 hc⟩

/-- Helper: the pipes counted by newlyPassed are exactly the pipes whose
passed flag flips on this transition. -/
theorem newlyPassed_eq_flips (s : State) :
    ((movedPipes s).filter
      (fun p => !p.passed && (flipPassed p).passed)).length = newlyPassed s := by
  unfold newlyPassed
  congr 1
  apply List.filter_congr
  intro p _
  by_cases h : p.passed
  · simp [h, flipPassed]
  · by_cases h2 : p.x + PIPE_WIDTH < BIRD_X
    · simp [h, h2, flipPassed]
    · simp [h, h2, flipPassed]

/-- Claim C9: the score never decreases across a tick, and on a running tick
the increment is exactly the number of pipes whose passed flag flips from
false to true on this same transition; a pipe flips exactly on the tick its
right edge has moved left of the fixed bird position, and a pipe already
passed is left untouched, so each obstacle is credited at most once. -/
theorem tick_score_accounting (n : ℕ) (s : State) :
    s.score ≤ (tick n s).score ∧
    (s.gameEnd = false → s.paused = false →
      ((tick n s).score = s.score +
          (((movedPipes s).filter
            (fun p => !p.passed && (flipPassed p).passed)).length : ℚ) ∧
        (tick n s).pipes = (movedPipes s).map flipPassed ∧
        ∀ p ∈ movedPipes s,
          ((flipPassed p).passed = true ∧ p.passed = false ↔
            p.passed = false ∧ p.x + PIPE_WIDTH < BIRD_X) ∧
          (p.passed = true → flipPassed p = p))) := by
  have hbranch : (tick n s).score = s.score ∨ (tick n s).score = newScore s := by
    unfold tick
    cases hgp : (s.gameEnd || s.paused)
    · cases hc : collisionNow s <;> simp [hgp, hc]
    · simp [hgp]
  constructor
  · rcases hbranch with h | h
    · rw [h]
    · rw [h]
      unfold newScore
      have : (0:ℚ) ≤ (newlyPassed s : ℚ) := by positivity
      linarith
  · intro hend hpause
    have hsp : (tick n s).score = newScore s ∧
        (tick n s).pipes = pipesWithScore s := by
      unfold tick
      rw [hend, hpause]
      cases hc : collisionNow s <;> simp [hc]
    refine ⟨?_, hsp.2, ?_⟩
    · rw [hsp.1, newlyPassed_eq_flips]
      unfold newScore
      ring
    · intro p _
      constructor
      · by_cases h : p.passed
        · simp [h, flipPassed]
        · by_cases h2 : p.x + PIPE_WIDTH < BIRD_X
          · simp [h, h2, flipPassed]
          · simp [h, h2, flipPassed]
      · intro h
        simp [flipPassed, h]

/-- Claim C9 (witness): on a concrete state with one unpassed pipe whose
moved right edge crosses the bird position, the score grows by exactly the
one flipped pipe. -/
theorem tick_score_accounting_witness :
    scoreWitnessState.score ≤ (tick 1 scoreWitnessState).score ∧
    (tick 1 scoreWitnessState).score = scoreWitnessState.score +
      (((movedPipes scoreWitnessState).filter
        (fun p => !p.passed && (flipPassed p).passed)).length : ℚ) ∧
    (tick 1 scoreWitnessState).pipes =
      (movedPipes scoreWitnessState).map flipPassed := by
  have h := tick_score_accounting 1 scoreWitnessState
  have h2 := h.2 rfl rfl
  exact ⟨h.1, h2.1, h2.2.1⟩

/-- Claim C10: on a vulnerable tick with no screen-boundary hit, the tick
registers a collision (and decrements lives) exactly when the freshly
integrated bird position collides with some pipe at its position as stored
in the incoming state, before this tick moves it; yet the state produced by
the very same tick stores the pipes after their leftward move, so the
collision geometry lags the stored pipe positions by one tick. -/
theorem tick_collision_uses_incoming_pipes (n : ℕ) (s : State)
    (hend : s.gameEnd = false) (hpause : s.paused = false)
    (hvul : newTime s ≥ s.invulnerableUntil)
    (htop : checkBirdHitsTop (yNew s) = false)
    (hbot : checkBirdHitsBottom (yNew s) = false) :
    ((tick n s).lives = s.lives - 1 ↔
      ∃ p ∈ s.pipes, checkBirdHitsPipe (yNew s) p = true) ∧
    (tick n s).pipes = (movedPipes s).map flipPassed ∧
    ∀ q ∈ (tick n s).pipes, ∃ p ∈ s.pipes, q.x = p.x - PIPE_SPEED := by
  have hd : decide (newTime s ≥ s.invulnerableUntil) = true := decide_eq_true hvul
  have hcol : collisionNow s = (hitPipe s).isSome := by
    simp [collisionNow, htop, hbot, hd]
  have hpipes : (tick n s).pipes = (movedPipes s).map flipPassed := by
    unfold tick
    rw [hend, hpause]
    cases hc : collisionNow s <;> simp [hc, pipesWithScore]
  refine ⟨?_, hpipes, ?_⟩
  · cases hh : (hitPipe s).isSome
    · have hc : collisionNow s = false := by rw [hcol, hh]
      have hlives : (tick n s).lives = s.lives := by
        unfold tick
        rw [hend, hpause]
        simp [hc]
      rw [hlives]
      constructor
      · intro habs
        exfalso
        have : (0:ℚ) = -1 := by linarith
        norm_num at this
      · rintro ⟨p, hp, hcheck⟩
        exfalso
        have hnone : hitPipe s = none := Option.not_isSome_iff_eq_none.mp
          (by rw [hh]; exact Bool.false_ne_true)
        have := List.find?_eq_none.mp hnone p hp
        rw [hcheck] at this
        exact this rfl
    · have hc : collisionNow s = true := hcol.trans hh
      have hlives : (tick n s).lives = s.lives - 1 := by
        unfold tick
        rw [hend, hpause]
        simp [hc]
      rw [hlives]
      refine iff_of_true rfl ?_
      obtain ⟨p, hp⟩ := Option.isSome_iff_exists.mp hh
      exact ⟨p, List.mem_of_find?_eq_some hp, List.find?_some hp⟩
  · intro q hq
    rw [hpipes] at hq
    simp only [movedPipes, List.mem_map, List.mem_filter] at hq
    obtain ⟨r, ⟨⟨p, hp, rfl⟩, _⟩, rfl⟩ := hq
    refine ⟨p, hp, ?_⟩
    by_cases h : p.passed = false ∧ p.x - PIPE_SPEED + PIPE_WIDTH < BIRD_X <;>
      simp [flipPassed, h]

/-- Claim C10 (witness): with one pipe at x = 143, the bird overlapping the
column the pipe occupies after the move but not before, the tick registers
no collision and no life is lost, yet the stored pipe sits at x = 141 where
the collision test, had it used the stored position, would have fired. -/
theorem tick_collision_uses_incoming_pipes_witness :
    ¬((tick 1 lagState).lives = lagState.lives - 1) ∧
    (tick 1 lagState).pipes =
      [{ id := 0, x := 141, gapY := 1 / 2, gapHeight := 1 / 100,
         passed := false, time := 0 }] ∧
    checkBirdHitsPipe (yNew lagState)
      { id := 0, x := 141, gapY := 1 / 2, gapHeight := 1 / 100,
        passed := false, time := 0 } = true := by
  have hvul : newTime lagState ≥ lagState.invulnerableUntil := by
    norm_num [newTime, lagState, initialState, TICK_RATE_MS]
  have htop : checkBirdHitsTop (yNew lagState) = false := by
    norm_num [checkBirdHitsTop, yNew, velNew, lagState, initialState, GRAVITY,
      CANVAS_HEIGHT, BIRB_HEIGHT]
  have hbot : checkBirdHitsBottom (yNew lagState) = false := by
    norm_num [checkBirdHitsBottom, yNew, velNew, lagState, initialState,
      GRAVITY, CANVAS_HEIGHT, BIRB_HEIGHT]
  have h := tick_collision_uses_incoming_pipes 1 lagState rfl rfl hvul htop hbot
  refine ⟨?_, ?_, ?_⟩
  · intro habs
    obtain ⟨p, hp, hcheck⟩ := h.1.mp habs
    have hpl : p = lagPipe := by
      have hl : lagState.pipes = [lagPipe] := rfl
      rw [hl] at hp
      simpa using hp
    rw [hpl] at hcheck
    have hfalse : checkBirdHitsPipe (yNew lagState) lagPipe = false := by
      norm_num [checkBirdHitsPipe, yNew, velNew, lagState, lagPipe,
        initialState, GRAVITY, BIRD_X, BIRB_WIDTH, BIRB_HEIGHT, PIPE_WIDTH,
        CANVAS_HEIGHT]
    rw [hcheck] at hfalse
    simp at hfalse
  · rw [h.2.1]
    norm_num [movedPipes, flipPassed, lagState, lagPipe, initialState,
      PIPE_SPEED, PIPE_WIDTH, BIRD_X]
  · norm_num [checkBirdHitsPipe, yNew, velNew, lagState, lagPipe, initialState,
      GRAVITY, BIRD_X, BIRB_WIDTH, BIRB_HEIGHT, PIPE_WIDTH, CANVAS_HEIGHT]

/-- Claim C7: on a vulnerable tick where the bird box lies entirely below
the gap band of the first matching pipe (bird top at or below the gap
bottom) while hitting neither screen boundary, the tick registers a
collision classified as bottom and the resulting velocity is negative, an
upward bounce. -/
theorem tick_bottom_collision (n : ℕ) (s : State) (p : Pipe)
    (hend : s.gameEnd = false) (hpause : s.paused = false)
    (hvul : newTime s ≥ s.invulnerableUntil)
    (htop : checkBirdHitsTop (yNew s) = false)
    (hbot : checkBirdHitsBottom (yNew s) = false)
    (hfind : hitPipe s = some p)
    (hg : 0 ≤ p.gapHeight)
    (hbelow : (p.gapY + p.gapHeight / 2) * CANVAS_HEIGHT ≤ yNew s) :
    getPipeCollisionType (yNew s) p = CollisionType.bottom ∧
    (tick n s).lives = s.lives - 1 ∧
    (tick n s).invulnerableUntil = newTime s + 2 ∧
    (tick n s).birdVelocity < 0 := by
  have h400 : CANVAS_HEIGHT = 400 := rfl
  have h30 : BIRB_HEIGHT = 30 := rfl
  have hclass : getPipeCollisionType (yNew s) p = CollisionType.bottom := by
    simp only [getPipeCollisionType]
    rw [if_neg]
    rw [not_lt, h400, h30]
    rw [h400] at hbelow
    nlinarith [hg, hbelow]
  have hd : decide (newTime s ≥ s.invulnerableUntil) = true := decide_eq_true hvul
  have hcol : collisionNow s = true := by
    simp [collisionNow, htop, hbot, hfind, hd]
  have hbounce : shouldBounceUp s = true := by
    simp [shouldBounceUp, htop, hbot, hfind, hclass]
    rfl
  have hl : (tick n s).lives = s.lives - 1 := by
    unfold tick
    rw [hend, hpause]
    simp [hcol]
  have hi : (tick n s).invulnerableUntil = newTime s + 2 := by
    unfold tick
    rw [hend, hpause]
    simp [hcol]
  have hv : (tick n s).birdVelocity =
      (generateBounceVelocity s.rngSeed (shouldBounceUp s)).1 := by
    unfold tick
    rw [hend, hpause]
    simp [hcol]
  refine ⟨hclass, hl, hi, ?_⟩
  rw [hv, hbounce]
  simp only [generateBounceVelocity, if_pos]
  have hpos : 0 < 3 + |RNG.scale (RNG.hash s.rngSeed)| * 3 := by positivity
  linarith

/-- Claim C7 (witness): the bird integrated to y = 200 sits entirely below
the gap band from 50 to 150 of the one overlapping pipe, and the tick
classifies the hit as bottom, takes a life and bounces upward. -/
theorem tick_bottom_collision_witness :
    getPipeCollisionType (yNew bottomHitState) bottomHitPipe =
      CollisionType.bottom ∧
    (tick 1 bottomHitState).lives = bottomHitState.lives - 1 ∧
    (tick 1 bottomHitState).birdVelocity < 0 := by
  have hpred : checkBirdHitsPipe (yNew bottomHitState) bottomHitPipe = true := by
    norm_num [checkBirdHitsPipe, yNew, velNew, bottomHitState, bottomHitPipe,
      initialState, GRAVITY, BIRD_X, BIRB_WIDTH, BIRB_HEIGHT, PIPE_WIDTH,
      CANVAS_HEIGHT]
  have hfind : hitPipe bottomHitState = some bottomHitPipe := by
    have hl : bottomHitState.pipes = [bottomHitPipe] := rfl
    unfold hitPipe
    rw [hl]
    exact List.find?_cons_of_pos _ hpred
  have hvul : newTime bottomHitState ≥ bottomHitState.invulnerableUntil := by
    norm_num [newTime, bottomHitState, initialState, TICK_RATE_MS]
  have htop : checkBirdHitsTop (yNew bottomHitState) = false := by
    norm_num [checkBirdHitsTop, yNew, velNew, bottomHitState, initialState,
      GRAVITY]
  have hbot : checkBirdHitsBottom (yNew bottomHitState) = false := by
    norm_num [checkBirdHitsBottom, yNew, velNew, bottomHitState, initialState,
      GRAVITY, BIRB_HEIGHT, CANVAS_HEIGHT]
  have hg : (0:ℚ) ≤ bottomHitPipe.gapHeight := by norm_num [bottomHitPipe]
  have hbelow : (bottomHitPipe.gapY + bottomHitPipe.gapHeight / 2) *
      CANVAS_HEIGHT ≤ yNew bottomHitState := by
    norm_num [bottomHitPipe, yNew, velNew, bottomHitState, initialState,
      GRAVITY, CANVAS_HEIGHT]
  have h := tick_bottom_collision 1 bottomHitState bottomHitPipe rfl rfl hvul
    htop hbot hfind hg hbelow
  exact ⟨h.1, h.2.1, h.2.2.2⟩
/-- Helper: on a nonnegative integer dividend and positive natural divisor
the JavaScript remainder agrees with the Euclidean remainder. -/
theorem jsMod_intCast (x : ℤ) (d : ℕ) (hx : 0 ≤ x) (hd : 0 < d) :
    jsMod (x : ℚ) (d : ℚ) = ((x % (d : ℤ) : ℤ) : ℚ) := by
  unfold jsMod jsTrunc
  have hdq : (0:ℚ) < (d:ℚ) := by exact_mod_cast hd
  have hxq : (0:ℚ) ≤ (x:ℚ) := by exact_mod_cast hx
  have hq : (0:ℚ) ≤ (x:ℚ) / (d:ℚ) := by positivity
  rw [if_pos hq, Rat.floor_intCast_div_natCast]
  have h2 : ((x % (d:ℤ) : ℤ) : ℚ) = (x:ℚ) - (d:ℚ) * ((x / (d:ℤ) : ℤ) : ℚ) := by
    rw [Int.emod_def]
    push_cast
    ring
  rw [h2]

/-- Helper: the hash of a nonnegative integer seed is the linear
congruential value modulo 2 to the power 31, computed exactly. -/
theorem hash_intCast (n : ℤ) (hn : 0 ≤ n) :
    RNG.hash (n : ℚ) =
      (((1103515245 * n + 12345) % 2147483648 : ℤ) : ℚ) := by
  unfold RNG.hash RNG.a RNG.c RNG.m
  have h1 : (1103515245:ℚ) * (n:ℚ) + 12345 =
      ((1103515245 * n + 12345 : ℤ) : ℚ) := by
    push_cast
    ring
  have h2 : (2147483648:ℚ) = ((2147483648:ℕ) : ℚ) := by norm_num
  rw [h1, h2, jsMod_intCast (1103515245 * n + 12345) 2147483648
    (by positivity) (by norm_num)]
  norm_num

/-- Helper: scaling an integer hash in the half-open range below 2 to the
power 31 lands in the closed interval from -1 to 1. -/
theorem scale_intCast_bounds (k : ℤ) (h0 : 0 ≤ k) (h1 : k < 2147483648) :
    -1 ≤ RNG.scale (k : ℚ) ∧ RNG.scale (k : ℚ) ≤ 1 := by
  unfold RNG.scale RNG.m
  have hk0 : (0:ℚ) ≤ (k:ℚ) := by exact_mod_cast h0
  have hk1 : (k:ℚ) ≤ 2147483647 := by
    have hk : k ≤ 2147483647 := by omega
    exact_mod_cast hk
  constructor
  · have hdiv : (0:ℚ) ≤ 2 * (k:ℚ) / (2147483648 - 1) := by positivity
    linarith
  · have hdiv : 2 * (k:ℚ) / (2147483648 - 1) ≤ 2 := by
      rw [div_le_iff (by norm_num : (0:ℚ) < 2147483648 - 1)]
      linarith
    linarith

/-- Claim C6: bounce synthesis advances the RNG exactly once, returning as
next seed the value (1103515245 * seed + 12345) mod 2 to the power 31; for
integer seeds in the range from 0 below 2 to the power 31 the scaled draw
lies between -1 and 1, the velocity magnitude lies between 3 and 6, and the
velocity is negative exactly for an upward bounce and positive exactly for
a downward one. -/
theorem generateBounceVelocity_spec (n : ℤ) (up : Bool)
    (h0 : 0 ≤ n) (h1 : n < 2147483648) :
    (generateBounceVelocity (n : ℚ) up).2 =
      (((1103515245 * n + 12345) % 2147483648 : ℤ) : ℚ) ∧
    -1 ≤ RNG.scale ((generateBounceVelocity (n : ℚ) up).2) ∧
    RNG.scale ((generateBounceVelocity (n : ℚ) up).2) ≤ 1 ∧
    3 ≤ |(generateBounceVelocity (n : ℚ) up).1| ∧
    |(generateBounceVelocity (n : ℚ) up).1| ≤ 6 ∧
    ((generateBounceVelocity (n : ℚ) up).1 < 0 ↔ up = true) ∧
    (0 < (generateBounceVelocity (n : ℚ) up).1 ↔ up = false) := by
  have hseed : (generateBounceVelocity (n : ℚ) up).2 =
      (((1103515245 * n + 12345) % 2147483648 : ℤ) : ℚ) := by
    simp only [generateBounceVelocity]
    exact hash_intCast n h0
  have hk0 : 0 ≤ (1103515245 * n + 12345) % 2147483648 :=
    Int.emod_nonneg _ (by norm_num)
  have hk1 : (1103515245 * n + 12345) % 2147483648 < 2147483648 :=
    Int.emod_lt_of_pos _ (by norm_num)
  have hsc := scale_intCast_bounds _ hk0 hk1
  have hb1 : -1 ≤ RNG.scale ((generateBounceVelocity (n : ℚ) up).2) := by
    rw [hseed]
    exact hsc.1
  have hb2 : RNG.scale ((generateBounceVelocity (n : ℚ) up).2) ≤ 1 := by
    rw [hseed]
    exact hsc.2
  have habs : |RNG.scale (RNG.hash (n : ℚ))| ≤ 1 := by
    rw [hash_intCast n h0]
    exact abs_le.mpr hsc
  have habs0 : 0 ≤ |RNG.scale (RNG.hash (n : ℚ))| := abs_nonneg _
  have hmagpos : 0 < 3 + |RNG.scale (RNG.hash (n : ℚ))| * 3 := by positivity
  have hmag1 : 3 ≤ 3 + |RNG.scale (RNG.hash (n : ℚ))| * 3 := by linarith
  have hmag2 : 3 + |RNG.scale (RNG.hash (n : ℚ))| * 3 ≤ 6 := by linarith
  have hmagabs : |3 + |RNG.scale (RNG.hash (n : ℚ))| * 3| =
      3 + |RNG.scale (RNG.hash (n : ℚ))| * 3 := abs_of_pos hmagpos
  cases up with
  | false =>
    have hv : (generateBounceVelocity (n : ℚ) false).1 =
        3 + |RNG.scale (RNG.hash (n : ℚ))| * 3 := by
      simp [generateBounceVelocity]
    refine ⟨hseed, hb1, hb2, ?_, ?_, ?_, ?_⟩
    · rw [hv, hmagabs]
      exact hmag1
    · rw [hv, hmagabs]
      exact hmag2
    · rw [hv]
      exact iff_of_false (by linarith) (by simp)
    · rw [hv]
      exact iff_of_true hmagpos rfl
  | true =>
    have hv : (generateBounceVelocity (n : ℚ) true).1 =
        -(3 + |RNG.scale (RNG.hash (n : ℚ))| * 3) := by
      simp [generateBounceVelocity]
    refine ⟨hseed, hb1, hb2, ?_, ?_, ?_, ?_⟩
    · rw [hv, abs_neg, hmagabs]
      exact hmag1
    · rw [hv, abs_neg, hmagabs]
      exact hmag2
    · rw [hv]
      exact iff_of_true (by linarith) rfl
    · rw [hv]
      exact iff_of_false (by linarith) (by simp)

/-- Claim C6 (witness): the initial seed 12345 is in range and yields an
upward, hence negative, bounce velocity with magnitude between 3 and 6. -/
theorem generateBounceVelocity_spec_witness :
    (0:ℤ) ≤ 12345 ∧ (12345:ℤ) < 2147483648 ∧
    3 ≤ |(generateBounceVelocity ((12345:ℤ) : ℚ) true).1| ∧
    |(generateBounceVelocity ((12345:ℤ) : ℚ) true).1| ≤ 6 ∧
    ((generateBounceVelocity ((12345:ℤ) : ℚ) true).1 < 0 ↔ true = true) := by
  have h := generateBounceVelocity_spec 12345 true (by norm_num) (by norm_num)
  exact ⟨by norm_num, by norm_num, h.2.2.2.1, h.2.2.2.2.1, h.2.2.2.2.2.1⟩
